import Mathlib

/-!
Verification development for the ADA agent-execution runtime.

The definitions below are a shallow embedding of the TypeScript sources:
the bounded multi-step reasoning loop (`runMultiStepCoreTest` in
`packages/plugin-bootstrap/src/__tests__/multi-step.test.ts`), the
world-settings storage helpers (`getWorldSettings`, `updateWorldSettings`,
`processSettingUpdates` in the same package), the scenario evaluation
engine (`packages/cli/src/commands/scenario/src/EvaluationEngine.ts`),
the external-message ingestion route
(`packages/server/src/api/messaging/core.ts`), and the PGlite database
adapter (`packages/plugin-sql/src/pglite/adapter.ts`).
-/

namespace ADA

/-! ### JavaScript primitives used by the embedded code -/

/-- Truthiness of an optional JS string: `null`/`undefined` and the empty
string are falsy; every other string is truthy. -/
def jsStrTruthy : Option String → Bool
  | none => false
  | some s => s ≠ ""

/-- The JS idiom `s || d` on an optional string: the default `d` replaces a
falsy (absent or empty) value. -/
def jsOr (a : Option String) (d : String) : String :=
  match a with
  | none => d
  | some s => if s = "" then d else s

/-- JS `parseInt` on the decimal fragment the code exercises: the longest
leading run of decimal digits is the value; a string with no leading digit
yields NaN, modelled as `none`. -/
def jsParseInt (s : String) : Option Nat :=
  let ds := s.data.takeWhile Char.isDigit
  if ds.isEmpty then none
  else some (ds.foldl (fun acc c => 10 * acc + (c.toNat - 48)) 0)

/-! ### Multi-step loop model

Shallow embedding of `runMultiStepCoreTest`
(`multi-step.test.ts`, lines 511 to 711).  Model outputs and capability
behavior reach the loop through an environment of oracles; the loop body,
its exit conditions, its trajectory recording and the final summarization
are translated statement by statement from the source.
-/

/-- A decision parsed out of a DECIDING step model output: the
destructuring `const [thought, providers = [], action, isFinish] = parsedStep`
in the source (`providers` defaults to the empty list). -/
structure ParsedStep where
  thought : Option String
  providers : List String
  action : Option String
  isFinish : Bool
deriving DecidableEq

/-- One entry of the `traceActionResult` trajectory list.  The source
stores `data.actionName` plus `success`, optional `text`, optional
`error`. -/
structure TraceEntry where
  actionName : String
  success : Bool
  text : Option String
  error : Option String
deriving DecidableEq

/-- What happens when the loop pulls one provider named by a step:
the lookup may miss (`Provider not found`), `provider.get` may reject
(an exception), resolve to a falsy value (`Provider returned no result`),
or resolve to a result object with a `text` and an `error` field; after a
result is recorded the per-provider callback may itself throw, which the
source re-throws into the step-level catch. -/
inductive ProviderOutcome where
  | notFound
  | throws (msg : String)
  | noResult
  | result (text : String) (error : Option String) (callbackFails : Option String)

/-- What happens when the loop executes the step action through
`runtime.processActions`: it may throw, or complete with the first cached
action result (a `success` flag and an optional `text`) read back from
`runtime.stateCache`, absent when the cache has no entry. -/
inductive ActionOutcome where
  | throws (msg : String)
  | done (cached : Option (Bool × Option String))

/-- The summarization model output as parsed by `parseKeyValueXml`:
`none` when parsing fails, otherwise an object with optional `thought`
and `text` fields. -/
structure SummaryParse where
  thought : Option String
  text : Option String
deriving DecidableEq

/-- Environment of one run: the `MAX_MULTISTEP_ITERATIONS` setting as
returned by `runtime.getSetting`, the parse result of each DECIDING model
call (indexed by the 1-based iteration count), the outcome of the
`idx`-th provider pull of each iteration, the outcome of the action
execution of each iteration, and the parse result of the single
summarization call. -/
structure MultiStepEnv where
  maxSetting : Option String
  parses : Nat → Option ParsedStep
  providerOutcome : Nat → Nat → ProviderOutcome
  actionOutcome : Nat → ActionOutcome
  summaryParse : Option SummaryParse

/-- Trajectory entry pushed when `parseKeyValueXml` returns null for a
DECIDING step. -/
def parseErrorEntry : TraceEntry :=
  { actionName := "parse_error", success := false, text := none,
    error := some "Failed to parse step result" }

/-- Trajectory entry pushed when a named provider is not registered. -/
def notFoundEntry (name : String) : TraceEntry :=
  { actionName := name, success := false, text := none,
    error := some ("Provider not found: " ++ name) }

/-- Trajectory entry pushed when `provider.get` resolves to a falsy
value. -/
def noResultEntry (name : String) : TraceEntry :=
  { actionName := name, success := false, text := none,
    error := some "Provider returned no result" }

/-- Trajectory entry pushed for a provider result: `success` is the
truthiness of `providerResult.text`; on success the text is stored and on
failure the provider error is stored. -/
def providerEntry (name text : String) (err : Option String) : TraceEntry :=
  if text ≠ "" then
    { actionName := name, success := true, text := some text, error := none }
  else
    { actionName := name, success := false, text := none, error := err }

/-- Trajectory entry pushed after `processActions`: `success` is
`result.success ?? false` over the first cached action result, and both
`text` and (on failure) `error` carry `result.text`. -/
def actionEntry (a : String) (cached : Option (Bool × Option String)) : TraceEntry :=
  let success := (cached.map Prod.fst).getD false
  let t := cached.bind Prod.snd
  { actionName := a, success := success, text := t,
    error := if success then none else t }

/-- Trajectory entry pushed by the step-level catch block:
`actionName` is `action || "unknown"` and `error` the exception
message. -/
def catchEntry (action : Option String) (msg : String) : TraceEntry :=
  { actionName := jsOr action "unknown", success := false, text := none,
    error := some msg }

/-- The provider loop of one step (`for (const providerName of providers)`):
entries recorded so far paired with the exception, if one was thrown.
A thrown exception abandons the remaining providers. -/
def runProviders (env : MultiStepEnv) (iter : Nat) :
    Nat → List String → List TraceEntry × Option String
  | _, [] => ([], none)
  | idx, name :: rest =>
    match env.providerOutcome iter idx with
    | .notFound =>
      let r := runProviders env iter (idx + 1) rest
      (notFoundEntry name :: r.1, r.2)
    | .throws m => ([], some m)
    | .noResult =>
      let r := runProviders env iter (idx + 1) rest
      (noResultEntry name :: r.1, r.2)
    | .result t e cb =>
      let entry := providerEntry name t e
      match cb with
      | some m => ([entry], some m)
      | none =>
        let r := runProviders env iter (idx + 1) rest
        (entry :: r.1, r.2)

/-- The body of the `try` block of one step: the provider loop followed by
the `if (action)` execution.  Returns the entries recorded inside the
block and the exception, if one was thrown. -/
def tryStep (env : MultiStepEnv) (iter : Nat) (ps : ParsedStep) :
    List TraceEntry × Option String :=
  let pr := runProviders env iter 0 ps.providers
  match pr.2 with
  | some m => (pr.1, some m)
  | none =>
    match ps.action with
    | none => (pr.1, none)
    | some a =>
      if a = "" then (pr.1, none)
      else
        match env.actionOutcome iter with
        | .throws m => (pr.1, some m)
        | .done cached => (pr.1 ++ [actionEntry a cached], none)

/-- One step with its catch handler: a thrown exception is converted into
a final failed trajectory entry and never escapes. -/
def execStep (env : MultiStepEnv) (iter : Nat) (ps : ParsedStep) : List TraceEntry :=
  match tryStep env iter ps with
  | (es, none) => es
  | (es, some m) => es ++ [catchEntry ps.action m]

/-- The iteration ceiling:
`parseInt(runtime.getSetting(MAX_MULTISTEP_ITERATIONS) || 6)`.
When `parseInt` yields NaN every comparison `iterationCount < maxIterations`
is false, so NaN behaves as a ceiling of 0. -/
def maxIterationsOf (setting : Option String) : Nat :=
  match jsParseInt (jsOr setting "6") with
  | some n => n
  | none => 0

/-- The `while (iterationCount < maxIterations)` loop.  `fuel` is the
number of remaining admissible iterations, `count` the iterations already
performed, `acc` the trajectory so far.  Returns the final iteration
count and trajectory.  Exits: parse failure (entry pushed, break),
`isFinish` (break), nothing to do (break), or the ceiling. -/
def loopAux (env : MultiStepEnv) : Nat → Nat → List TraceEntry → Nat × List TraceEntry
  | 0, count, acc => (count, acc)
  | fuel + 1, count, acc =>
    match env.parses (count + 1) with
    | none => (count + 1, acc ++ [parseErrorEntry])
    | some ps =>
      if ps.isFinish then (count + 1, acc)
      else if ps.providers.isEmpty && !jsStrTruthy ps.action then (count + 1, acc)
      else loopAux env fuel (count + 1) (acc ++ execStep env (count + 1) ps)

/-- Observable result of one full cycle: loop iteration count, recorded
trajectory, how many times the summarization block ran, the final
response text (`responseContent.text` or absent), the length of
`responseMessages`, and the returned `mode` string. -/
structure RunResult where
  iterations : Nat
  entries : List TraceEntry
  summaryRuns : Nat
  responseText : Option String
  responseMessagesLen : Nat
  mode : String
deriving DecidableEq

/-- The text the summarization step produced, if the parse succeeded and
the text field is truthy (`if (summary?.text)` in the source). -/
def summaryTextOf (s : Option SummaryParse) : Option String :=
  match s with
  | none => none
  | some sp =>
    match sp.text with
    | none => none
    | some t => if t = "" then none else some t

/-- The whole of `runMultiStepCoreTest`: the bounded loop, then the single
straight-line summarization block building `responseContent`,
`responseMessages` and `mode`. -/
def runMultiStep (env : MultiStepEnv) : RunResult :=
  let fuel := maxIterationsOf env.maxSetting
  let r := loopAux env fuel 0 []
  let rt := summaryTextOf env.summaryParse
  { iterations := r.1, entries := r.2, summaryRuns := 1,
    responseText := rt,
    responseMessagesLen := if rt.isSome then 1 else 0,
    mode := if rt.isSome then "simple" else "none" }

/-! ### Shared lemmas about the multi-step loop -/

/-- The loop performs at most `fuel` further iterations. -/
theorem loopAux_fst_le (env : MultiStepEnv) :
    ∀ fuel count acc, (loopAux env fuel count acc).1 ≤ count + fuel := by
  intro fuel
  induction fuel with
  | zero => intro count acc; simp [loopAux]
  | succ n ih =>
    intro count acc
    rw [loopAux]
    cases h : env.parses (count + 1) with
    | none => simp
    | some ps =>
      by_cases hf : ps.isFinish = true
      · simp [hf]
      · by_cases hp : (ps.providers.isEmpty && !jsStrTruthy ps.action) = true
        · simp [hf, hp]
        · dsimp only
          rw [if_neg hf, if_neg hp]
          have := ih (count + 1) (acc ++ execStep env (count + 1) ps)
          omega

/-- The iteration count of the loop depends only on the ceiling and on the
model parse results, never on provider or action outcomes. -/
theorem loopAux_fst_congr (env1 env2 : MultiStepEnv) (hp : env1.parses = env2.parses) :
    ∀ fuel count acc1 acc2,
      (loopAux env1 fuel count acc1).1 = (loopAux env2 fuel count acc2).1 := by
  intro fuel
  induction fuel with
  | zero => intro count acc1 acc2; rfl
  | succ n ih =>
    intro count acc1 acc2
    rw [loopAux, loopAux, hp]
    cases h : env2.parses (count + 1) with
    | none => rfl
    | some ps =>
      by_cases hf : ps.isFinish = true
      · simp [hf]
      · by_cases hpr : (ps.providers.isEmpty && !jsStrTruthy ps.action) = true
        · simp [hf, hpr]
        · dsimp only
          simp only [if_neg hf, if_neg hpr]
          exact ih (count + 1) _ _

/-! ### C1, C2, C3, C6: the claims about the multi-step loop -/

/-- Claim C1: on every run, the loop performs at most the configured
maximum number of DECIDING to EXECUTING iterations, read from the
`MAX_MULTISTEP_ITERATIONS` setting and defaulting to 6 when the setting
is unset, and the summarization block runs exactly once per cycle
regardless of how the loop exited. -/
theorem C1_iteration_ceiling (env : MultiStepEnv) :
    (runMultiStep env).iterations ≤ maxIterationsOf env.maxSetting ∧
    (runMultiStep env).summaryRuns = 1 ∧
    maxIterationsOf none = 6 := by
  refine ⟨?_, rfl, by decide⟩
  have h := loopAux_fst_le env (maxIterationsOf env.maxSetting) 0 []
  simpa [runMultiStep] using h

/-- Claim C2: the result mode is `"simple"` exactly when the summarization
output parses to an object with truthy (non-empty) text; in that case the
response content carries exactly that text and one response message is
produced, and in every other case the mode is `"none"`, the response
content is absent and the response message list is empty. -/
theorem summaryTextOf_isSome_iff (s : Option SummaryParse) :
    (summaryTextOf s).isSome = true ↔
      ∃ sp t, s = some sp ∧ sp.text = some t ∧ t ≠ "" := by
  cases s with
  | none => simp [summaryTextOf]
  | some sp =>
    cases ht : sp.text with
    | none => simp [summaryTextOf, ht]
    | some t =>
      by_cases he : t = "" <;> simp [summaryTextOf, ht, he]

theorem C2_mode_simple_iff (env : MultiStepEnv) :
    ((runMultiStep env).mode = "simple" ↔
      ∃ sp t, env.summaryParse = some sp ∧ sp.text = some t ∧ t ≠ "") ∧
    (runMultiStep env).responseText = summaryTextOf env.summaryParse ∧
    ((runMultiStep env).mode = "simple" → (runMultiStep env).responseMessagesLen = 1) ∧
    ((runMultiStep env).mode ≠ "simple" →
      (runMultiStep env).mode = "none" ∧ (runMultiStep env).responseText = none ∧
      (runMultiStep env).responseMessagesLen = 0) := by
  have hmode : (runMultiStep env).mode =
      (if (summaryTextOf env.summaryParse).isSome then "simple" else "none") := rfl
  have hrt : (runMultiStep env).responseText = summaryTextOf env.summaryParse := rfl
  have hlen : (runMultiStep env).responseMessagesLen =
      (if (summaryTextOf env.summaryParse).isSome then 1 else 0) := rfl
  cases hx : summaryTextOf env.summaryParse with
  | none =>
    rw [hx] at hmode hrt hlen
    simp only [Option.isSome_none, Bool.false_eq_true, if_false] at hmode hlen
    refine ⟨?_, hrt, ?_, fun _ => ⟨hmode, hrt, hlen⟩⟩
    · rw [hmode]
      constructor
      · intro hc; exact absurd hc (by decide)
      · intro hex
        have h2 := (summaryTextOf_isSome_iff env.summaryParse).mpr hex
        rw [hx] at h2
        exact absurd h2 (by decide)
    · intro hc; rw [hmode] at hc; exact absurd hc (by decide)
  | some t =>
    rw [hx] at hmode hrt hlen
    simp only [Option.isSome_some, if_true] at hmode hlen
    refine ⟨?_, hrt, fun _ => hlen, fun hc => absurd hmode hc⟩
    rw [hmode]
    constructor
    · intro _
      refine (summaryTextOf_isSome_iff env.summaryParse).mp ?_
      rw [hx]; rfl
    · intro _; rfl

/-- A step that never finishes, used to show the claim about parse
failures false: at iteration 1 the parse fails while iteration 2 would
have parsed successfully. -/
def parseFailEnv : MultiStepEnv :=
  { maxSetting := some "3",
    parses := fun i => if i = 1 then none else
      some { thought := some "t", providers := ["P"], action := none, isFinish := false },
    providerOutcome := fun _ _ => ProviderOutcome.noResult,
    actionOutcome := fun _ => ActionOutcome.done none,
    summaryParse := none }

/-- Counterexample to claim C3: with a ceiling of 3, a parse failure at
iteration 1 stops the loop at once — the run performs exactly one
iteration even though the ceiling was not reached, so the loop does not
proceed to the next iteration.  The parse failure is still recorded as a
failed trajectory entry. -/
theorem C3_parse_failure_breaks :
    maxIterationsOf parseFailEnv.maxSetting = 3 ∧
    parseFailEnv.parses 2 ≠ none ∧
    (runMultiStep parseFailEnv).iterations = 1 ∧
    (runMultiStep parseFailEnv).entries = [parseErrorEntry] := by
  refine ⟨by decide, by simp [parseFailEnv], rfl, rfl⟩

/-- Claim C3 as amended: when a DECIDING step's model output cannot be
parsed, the step is recorded as a failed `parse_error` trajectory entry
and the loop exits immediately (a `break`, not a continue), whether or
not the iteration ceiling has been reached; the cycle then proceeds
directly to the summarization block, which still runs exactly once. -/
theorem C3_parse_failure_recorded (env : MultiStepEnv) (fuel count : Nat)
    (acc : List TraceEntry) (h : env.parses (count + 1) = none) :
    loopAux env (fuel + 1) count acc = (count + 1, acc ++ [parseErrorEntry]) ∧
    (runMultiStep env).summaryRuns = 1 := by
  rw [loopAux, h]
  exact ⟨rfl, rfl⟩

/-- Witness for the amended claim C3, at the concrete counterexample
environment. -/
theorem C3_parse_failure_recorded_witness :
    loopAux parseFailEnv 3 0 [] = (1, [parseErrorEntry]) ∧
    (runMultiStep parseFailEnv).summaryRuns = 1 := by
  have h := C3_parse_failure_recorded parseFailEnv 2 0 [] (by rfl)
  simpa using h

/-- Claim C6: a throw inside a step (a provider pull or the action
execution) is caught by the step-level handler — the entries recorded up
to the throw are kept and a failed trajectory entry describing the error
is appended; the exception never escapes; and the loop continues exactly
as the model decisions dictate: the iteration count is unaffected by
provider or action outcomes and the summarization block still runs. -/
theorem C6_capability_errors_recovered :
    (∀ (env : MultiStepEnv) (iter : Nat) (ps : ParsedStep) (m : String)
        (es : List TraceEntry), tryStep env iter ps = (es, some m) →
      execStep env iter ps = es ++ [catchEntry ps.action m]) ∧
    (∀ (env : MultiStepEnv) (iter : Nat) (ps : ParsedStep) (m name : String)
        (rest : List String), ps.providers = name :: rest →
      env.providerOutcome iter 0 = ProviderOutcome.throws m →
      execStep env iter ps = [catchEntry ps.action m]) ∧
    (∀ env1 env2 : MultiStepEnv, env1.maxSetting = env2.maxSetting →
      env1.parses = env2.parses →
      (runMultiStep env1).iterations = (runMultiStep env2).iterations) ∧
    (∀ env : MultiStepEnv, (runMultiStep env).summaryRuns = 1) := by
  refine ⟨?_, ?_, ?_, fun env => rfl⟩
  · intro env iter ps m es h
    simp [execStep, h]
  · intro env iter ps m name rest hprov hout
    simp [execStep, tryStep, runProviders, hprov, hout]
  · intro env1 env2 hmax hp
    have h := loopAux_fst_congr env1 env2 hp (maxIterationsOf env1.maxSetting) 0 [] []
    simp only [runMultiStep]
    rw [hmax] at h ⊢
    exact h

/-! ### PGlite adapter model

Shallow embedding of `PgliteDatabaseAdapter` (`plugin-sql/src/pglite/adapter.ts`):
the adapter only observes the manager through its `isShuttingDown()` probe.
-/

/-- The PGlite client manager as the adapter observes it: a single
shutting-down flag behind `isShuttingDown()`. -/
structure PGliteClientManager where
  shuttingDown : Bool

/-- The manager probe `manager.isShuttingDown()`. -/
def isShuttingDown (m : PGliteClientManager) : Bool := m.shuttingDown

/-- `withDatabase` (adapter.ts lines 95 to 101): when the manager is
shutting down, a warning is logged and null is returned without running
the operation; otherwise the operation runs and its value is returned.
The result of a run operation is wrapped in `some`; the null shortcut is
`none`. -/
def withDatabase {α : Type} (m : PGliteClientManager) (operation : Unit → α) : Option α :=
  if isShuttingDown m then none else some (operation ())

/-- `isReady` (adapter.ts lines 117 to 119): the adapter is ready exactly
when the manager is not shutting down. -/
def isReady (m : PGliteClientManager) : Bool := !(isShuttingDown m)

/-- Claim C10: once the manager reports that it is shutting down, every
operation wrapped in `withDatabase` returns null without the supplied
operation influencing the result (so no database call is issued), and
`isReady` returns false. -/
theorem C10_shutdown_blocks_database (m : PGliteClientManager)
    (h : isShuttingDown m = true) :
    (∀ {α : Type} (operation : Unit → α), withDatabase m operation = none) ∧
    isReady m = false := by
  constructor
  · intro α operation
    simp [withDatabase, h]
  · simp [isReady, h]

/-- Witness for claim C10 at a concrete shutting-down manager. -/
theorem C10_shutdown_blocks_database_witness :
    isShuttingDown ⟨true⟩ = true ∧
    (withDatabase ⟨true⟩ (fun _ => (42 : Nat)) = none ∧ isReady ⟨true⟩ = false) :=
  ⟨rfl, (C10_shutdown_blocks_database ⟨true⟩ rfl).1 (fun _ => (42 : Nat)),
    (C10_shutdown_blocks_database ⟨true⟩ rfl).2⟩

/-! ### Identity resolution

Modelled from the spec: the implementation of `createUniqueUuid` lives in
the `@elizaos/core` entities module, which is not among the provided
sources — only its callers are.  Section 4.1 of the spec specifies
`resolve(agentId, platformId, kind) -> UUID` as a pure, total,
deterministic namespaced derivation for which different `agentId` values
must give different outputs for the same platform id.  The derivation is
realized here by an injective length-marker encoding of the three
components; the spec does not fix any concrete hash, only determinism and
the isolation property.
-/

/-- Length-marker encoding of one component: a run of `#` markers, one per
character, then a `$` separator, then the component itself. -/
def encodeTag (s : List Char) : List Char :=
  List.replicate s.length '#' ++ '$' :: s

/-- Modelled from the spec: the identity resolver.  Deterministic and
total; the three components are concatenated in an injective way. -/
def resolve (agentId platformId kind : String) : String :=
  String.mk (encodeTag agentId.data ++ encodeTag platformId.data ++ encodeTag kind.data)

/-- Modelled from the spec: the two-argument `createUniqueUuid(runtime, baseUserId)`
used by the settings helpers, a fixed-kind instance of `resolve`. -/
def createUniqueUuid (agentId baseUserId : String) : String :=
  resolve agentId baseUserId ""

/-- Two marker runs followed by a separator agree only when the runs and
the remainders agree. -/
theorem markerRun_inj : ∀ (n m : Nat) (s u : List Char),
    List.replicate n '#' ++ '$' :: s = List.replicate m '#' ++ '$' :: u →
    n = m ∧ s = u := by
  intro n
  induction n with
  | zero =>
    intro m s u h
    cases m with
    | zero => simpa using h
    | succ m2 =>
      simp only [List.replicate_zero, List.nil_append, List.replicate_succ,
        List.cons_append] at h
      injection h with h1 _
      exact absurd h1 (by decide)
  | succ n2 ih =>
    intro m s u h
    cases m with
    | zero =>
      simp only [List.replicate_zero, List.nil_append, List.replicate_succ,
        List.cons_append] at h
      injection h with h1 _
      exact absurd h1 (by decide)
    | succ m2 =>
      rw [List.replicate_succ, List.replicate_succ, List.cons_append, List.cons_append] at h
      injection h with _ h2
      obtain ⟨h3, h4⟩ := ih m2 s u h2
      exact ⟨by omega, h4⟩

/-- The length-marker encoding is prefix-free: equal concatenations split
identically. -/
theorem encodeTag_append_inj (a b t u : List Char)
    (h : encodeTag a ++ t = encodeTag b ++ u) : a = b ∧ t = u := by
  unfold encodeTag at h
  rw [List.append_assoc, List.cons_append, List.append_assoc, List.cons_append] at h
  obtain ⟨hlen, happ⟩ := markerRun_inj a.length b.length (a ++ t) (b ++ u) h
  exact List.append_inj happ hlen

/-- The resolver is injective in all three components. -/
theorem resolve_inj (a a2 p p2 k k2 : String)
    (h : resolve a p k = resolve a2 p2 k2) : a = a2 ∧ p = p2 ∧ k = k2 := by
  unfold resolve at h
  injection h with hd
  rw [List.append_assoc, List.append_assoc] at hd
  obtain ⟨ha, hd2⟩ := encodeTag_append_inj a.data a2.data _ _ hd
  obtain ⟨hp, hd3⟩ := encodeTag_append_inj p.data p2.data _ _ hd2
  have hk : k.data = k2.data := by
    have h4 : encodeTag k.data ++ ([] : List Char) = encodeTag k2.data ++ [] := by
      simpa using hd3
    exact (encodeTag_append_inj k.data k2.data [] [] h4).1
  refine ⟨?_, ?_, ?_⟩
  · cases a; cases a2; exact congrArg String.mk ha
  · cases p; cases p2; exact congrArg String.mk hp
  · cases k; cases k2; exact congrArg String.mk hk

/-- Claim C4: the identity resolution function is pure and deterministic —
calling it twice on the same `(agentId, platformId, kind)` yields the same
output — and changing the agent id alone, for a fixed platform id and
kind, always changes the output (per-agent isolation). -/
theorem C4_resolve_pure_and_isolating (a a2 p k : String) (h : a ≠ a2) :
    resolve a p k = resolve a p k ∧ resolve a p k ≠ resolve a2 p k :=
  ⟨rfl, fun hc => h (resolve_inj a a2 p p k k hc).1⟩

/-- Witness for claim C4 at two concrete agents sharing a platform id. -/
theorem C4_resolve_pure_and_isolating_witness :
    ("agent-one" : String) ≠ "agent-two" ∧
    (resolve "agent-one" "discord-guild-7" "world" =
        resolve "agent-one" "discord-guild-7" "world" ∧
      resolve "agent-one" "discord-guild-7" "world" ≠
        resolve "agent-two" "discord-guild-7" "world") :=
  ⟨by decide,
    C4_resolve_pure_and_isolating "agent-one" "agent-two" "discord-guild-7" "world" (by decide)⟩

/-! ### World settings storage

Shallow embedding of `getWorldSettings`, `updateWorldSettings` and
`processSettingUpdates` from the settings action of `plugin-bootstrap`
(test corpus lines 936 to 988 and 1132 to 1205).  The storage behind
`runtime.getWorld` / `runtime.updateWorld` is an external collaborator and
enters through an oracle that may fail (a thrown exception is an
`Except.error`).
-/

/-- A setting value: the source allows `string | boolean`. -/
inductive SVal where
  | s (v : String)
  | b (v : Bool)
deriving DecidableEq

/-- One configuration setting from a world settings map.  `value = none`
models a null (unset) value; `onSetAction`, when present, maps the new
value to a message, an empty string standing for a falsy result that is
not pushed. -/
structure Setting where
  name : String
  value : Option SVal
  required : Bool
  dependsOn : List String
  onSetAction : Option (SVal → String)

/-- A world settings map: a JS object keyed by setting key. -/
def WorldSettings := List (String × Setting)

/-- JS property read `ws[key]`. -/
def lookupSetting : WorldSettings → String → Option Setting
  | [], _ => none
  | (k, s) :: rest, key => if k = key then some s else lookupSetting rest key

/-- JS property write `ws[key] = s` (overwrites in place, appends when the
key is absent). -/
def setSetting : WorldSettings → String → Setting → WorldSettings
  | [], key, s => [(key, s)]
  | (k, v) :: rest, key, s =>
    if k = key then (k, s) :: rest else (k, v) :: setSetting rest key s

/-- World metadata: the settings sub-map, or absent. -/
structure WorldMetadata where
  settings : Option WorldSettings

/-- A world row as the settings helpers see it. -/
structure World where
  id : String
  metadata : Option WorldMetadata

/-- The storage oracle: `getWorld` may throw, return no world, or return
one; `updateWorld` may throw or succeed. -/
structure WorldStore where
  getWorld : String → Except String (Option World)
  updateWorld : World → Except String Unit

/-- The world value written back by `updateWorldSettings`: metadata is
initialized when absent and its `settings` field replaced. -/
def worldWithSettings (w : World) (ws : WorldSettings) : World :=
  let md := match w.metadata with
    | none => ({ settings := none } : WorldMetadata)
    | some md => md
  { w with metadata := some { md with settings := some ws } }

/-- `getWorldSettings` (source lines 936 to 953): resolve the world id,
read the world; absent world or absent `metadata.settings` yields null;
a thrown storage error is caught, logged and yields null. -/
def getWorldSettings (st : WorldStore) (agentId serverId : String) :
    Option WorldSettings :=
  match st.getWorld (createUniqueUuid agentId serverId) with
  | .error _ => none
  | .ok none => none
  | .ok (some w) =>
    match w.metadata with
    | none => none
    | some md => md.settings

/-- `updateWorldSettings` (source lines 958 to 988): read the world
(false when absent), write the settings into its metadata, save it; any
thrown storage error is caught, logged and yields false. -/
def updateWorldSettings (st : WorldStore) (agentId serverId : String)
    (worldSettings : WorldSettings) : Bool :=
  match st.getWorld (createUniqueUuid agentId serverId) with
  | .error _ => false
  | .ok none => false
  | .ok (some w) =>
    match st.updateWorld (worldWithSettings w worldSettings) with
    | .error _ => false
    | .ok _ => true

/-- Claim C8: a failed storage call only fails the enclosing operation —
when the world read throws, `getWorldSettings` returns null and
`updateWorldSettings` returns false, and when the write throws,
`updateWorldSettings` returns false; both are total, so no exception
escapes to the caller. -/
theorem C8_storage_failure_contained (st : WorldStore) (agentId serverId : String)
    (ws : WorldSettings) :
    (∀ e, st.getWorld (createUniqueUuid agentId serverId) = .error e →
      getWorldSettings st agentId serverId = none ∧
      updateWorldSettings st agentId serverId ws = false) ∧
    (∀ w e, st.getWorld (createUniqueUuid agentId serverId) = .ok (some w) →
      st.updateWorld (worldWithSettings w ws) = .error e →
      updateWorldSettings st agentId serverId ws = false) := by
  constructor
  · intro e h
    constructor
    · simp [getWorldSettings, h]
    · simp [updateWorldSettings, h]
  · intro w e hget hupd
    simp [updateWorldSettings, hget, hupd]

/-- A store whose every operation throws, for the C8 witness. -/
def failingStore : WorldStore :=
  { getWorld := fun _ => .error "storage offline",
    updateWorld := fun _ => .error "storage offline" }

/-- Witness for claim C8 at a concrete always-throwing store. -/
theorem C8_storage_failure_contained_witness :
    failingStore.getWorld (createUniqueUuid "agent" "server-1") = .error "storage offline" ∧
    (getWorldSettings failingStore "agent" "server-1" = none ∧
      updateWorldSettings failingStore "agent" "server-1" [] = false) :=
  ⟨rfl, (C8_storage_failure_contained failingStore "agent" "server-1" []).1
    "storage offline" rfl⟩

/-! ### Processing setting updates (C9) -/

/-- A requested setting update. -/
structure SettingUpdate where
  key : String
  value : SVal

/-- The dependency probe of the update loop:
`updatedState[dep]?.value !== null`.  When the dependency key is absent
the optional chain yields undefined, and `undefined !== null` holds, so
an absent key counts as met; a present key counts as met exactly when its
value is not null. -/
def depValueNotNull (ws : WorldSettings) (dep : String) : Bool :=
  match lookupSetting ws dep with
  | none => true
  | some s => s.value.isSome

/-- Messages contributed by an `onSetAction` hook, pushed only when the
hook exists and returns a truthy message. -/
def onSetMsgs (setting : Setting) (v : SVal) : List String :=
  match setting.onSetAction with
  | none => []
  | some f => if f v = "" then [] else [f v]

/-- One pass of the `for (const update of updates)` loop body over the
accumulated `(updatedState, messages, updatedAny)`. -/
def applyOne (acc : WorldSettings × List String × Bool) (u : SettingUpdate) :
    WorldSettings × List String × Bool :=
  match lookupSetting acc.1 u.key with
  | none => acc
  | some setting =>
    if setting.dependsOn ≠ [] ∧ ¬ (setting.dependsOn.all (depValueNotNull acc.1) = true) then
      (acc.1, acc.2.1 ++ ["Cannot update " ++ setting.name ++ " - dependencies not met"],
        acc.2.2)
    else
      (setSetting acc.1 u.key { setting with value := some u.value },
        acc.2.1 ++ (["Updated " ++ setting.name ++ " successfully"] ++ onSetMsgs setting u.value),
        true)

/-- The whole update loop. -/
def applyUpdates (ws : WorldSettings) (updates : List SettingUpdate) :
    WorldSettings × List String × Bool :=
  updates.foldl applyOne (ws, [], false)

/-- Observable outcome of `processSettingUpdates`: the returned
`updatedAny` flag and messages, plus whether the save path
(`updateWorldSettings`) was invoked at all. -/
structure ProcResult where
  updatedAny : Bool
  messages : List String
  persisted : Bool
deriving DecidableEq

/-- `processSettingUpdates` (source lines 1132 to 1205): empty update
lists return immediately; the loop applies each update against the
partially updated copy; the state is saved to world metadata only when at
least one update was applied, and a failed save or failed verification
read is caught and reported as no update. -/
def processSettingUpdates (st : WorldStore) (agentId serverId : String)
    (worldSettings : WorldSettings) (updates : List SettingUpdate) : ProcResult :=
  if updates.isEmpty then ⟨false, [], false⟩
  else
    let r := applyUpdates worldSettings updates
    if r.2.2 then
      if updateWorldSettings st agentId serverId r.1 then
        match getWorldSettings st agentId serverId with
        | none => ⟨false, ["Error occurred while updating settings"], true⟩
        | some _ => ⟨true, r.2.1, true⟩
      else ⟨false, ["Error occurred while updating settings"], true⟩
    else ⟨false, r.2.1, false⟩

/-- A settings map whose only entry depends on a key that is absent from
the map, for the C9 counterexample. -/
def depOnMissing : WorldSettings :=
  [("alpha", { name := "Alpha", value := none, required := true,
               dependsOn := ["missing"], onSetAction := none })]

/-- A store that accepts every operation and serves a world holding
`depOnMissing`, for the C9 counterexample. -/
def acceptingStore : WorldStore :=
  { getWorld := fun _ =>
      .ok (some { id := "w", metadata := some { settings := some depOnMissing } }),
    updateWorld := fun _ => .ok () }

/-- Counterexample to claim C9: the setting `alpha` depends on the key
`missing`, which has no (non-null) value in the settings state because it
is absent altogether; the claim says the update must be skipped with a
dependencies-not-met message, yet the code applies it — the comparison
`updatedState[dep]?.value !== null` is true for an absent key — and
persists the result. -/
theorem C9_absent_dependency_applies :
    lookupSetting depOnMissing "missing" = none ∧
    processSettingUpdates acceptingStore "agent" "server-1" depOnMissing
        [{ key := "alpha", value := SVal.s "v" }] =
      { updatedAny := true, messages := ["Updated Alpha successfully"], persisted := true } := by
  exact ⟨rfl, rfl⟩

/-- Claim C9 as amended: an update is skipped with a dependencies-not-met
message, leaving the state unchanged, exactly when its setting has a
non-empty `dependsOn` list containing a key that is present in the
(partially updated) state with a null value — an absent dependency key
counts as met; when every dependency is met the value is overwritten and
a success message (plus any `onSetAction` message) appended; and the
world settings metadata is persisted exactly when the update list is
non-empty and at least one update was applied. -/
theorem C9_dependency_check (st : WorldStore) (agentId serverId : String)
    (ws : WorldSettings) (updates : List SettingUpdate) :
    (∀ dep s, lookupSetting s dep = none → depValueNotNull s dep = true) ∧
    (∀ dep s st2, lookupSetting s dep = some st2 →
      (depValueNotNull s dep = true ↔ st2.value ≠ none)) ∧
    (∀ (acc : WorldSettings × List String × Bool) u setting,
      lookupSetting acc.1 u.key = some setting →
      setting.dependsOn ≠ [] →
      setting.dependsOn.all (depValueNotNull acc.1) = false →
      applyOne acc u =
        (acc.1, acc.2.1 ++ ["Cannot update " ++ setting.name ++ " - dependencies not met"],
          acc.2.2)) ∧
    (∀ (acc : WorldSettings × List String × Bool) u setting,
      lookupSetting acc.1 u.key = some setting →
      setting.dependsOn.all (depValueNotNull acc.1) = true →
      applyOne acc u =
        (setSetting acc.1 u.key { setting with value := some u.value },
          acc.2.1 ++ (["Updated " ++ setting.name ++ " successfully"]
            ++ onSetMsgs setting u.value),
          true)) ∧
    (processSettingUpdates st agentId serverId ws updates).persisted =
      (!updates.isEmpty && (applyUpdates ws updates).2.2) := by
  refine ⟨?_, ?_, ?_, ?_, ?_⟩
  · intro dep s h
    simp [depValueNotNull, h]
  · intro dep s st2 h
    simp [depValueNotNull, h, Option.isSome_iff_ne_none]
  · intro acc u setting hl hdeps hall
    simp [applyOne, hl, hdeps, hall]
  · intro acc u setting hl hall
    simp [applyOne, hl, hall]
  · unfold processSettingUpdates
    by_cases he : updates.isEmpty
    · simp [he]
    · simp only [he, Bool.not_false, Bool.true_and, if_false, Bool.false_eq_true]
      by_cases hany : (applyUpdates ws updates).2.2 = true
      · simp only [hany, if_true]
        by_cases hup : updateWorldSettings st agentId serverId (applyUpdates ws updates).1 = true
        · simp only [hup, if_true]
          cases getWorldSettings st agentId serverId <;> rfl
        · simp only [Bool.not_eq_true] at hup
          simp [hup]
      · simp only [Bool.not_eq_true] at hany
        simp [hany]

/-- Witness for the amended claim C9 at a concrete state: a present but
null dependency blocks the update, an absent one does not, and nothing is
persisted when nothing was applied. -/
theorem C9_dependency_check_witness :
    (depValueNotNull depOnMissing "missing" = true ∧
      (processSettingUpdates acceptingStore "agent" "server-1" depOnMissing []).persisted =
        (!(List.isEmpty ([] : List SettingUpdate)) &&
          (applyUpdates depOnMissing []).2.2)) := by
  have h := C9_dependency_check acceptingStore "agent" "server-1" depOnMissing []
  exact ⟨h.1 "missing" depOnMissing rfl, h.2.2.2.2⟩

/-! ### External message ingestion (C5)

Shallow embedding of the `/ingest-external` route
(`server/src/api/messaging/core.ts`, lines 255 to 330).  The route
validates the payload and delegates storage to
`serverInstance.createMessage`; the `AgentServer` implementation of
`createMessage` is not among the provided sources, so it is modelled from
the spec below.
-/

/-- A stored central message row, keeping the fields the ingestion path
touches; `sourceId` is the original platform message id. -/
structure StoredMessage where
  id : Nat
  channelId : String
  authorId : String
  content : String
  sourceId : Option String
deriving DecidableEq

/-- The body of a POST to `/ingest-external`, with the JS-optional fields
the route reads. -/
structure IngestPayload where
  channel_id : Option String
  server_id : Option String
  author_id : Option String
  content : Option String
  source_id : Option String

/-- Modelled from the spec: `AgentServer.createMessage` (only its caller,
the messaging router, is among the provided sources).  Section 5 of the
spec states that bus delivery is at-least-once and that
"idempotent Memory creation keyed by source message id is the
mitigation": creating a message whose source id is already present
returns the existing row and leaves the store unchanged; otherwise a new
row is appended. -/
def createMessage (store : List StoredMessage) (channelId authorId content : String)
    (sourceId : Option String) : List StoredMessage × StoredMessage :=
  match sourceId with
  | some s =>
    match store.find? (fun m => m.sourceId == some s) with
    | some existing => (store, existing)
    | none =>
      let m : StoredMessage :=
        { id := store.length, channelId := channelId, authorId := authorId,
          content := content, sourceId := some s }
      (store ++ [m], m)
  | none =>
    let m : StoredMessage :=
      { id := store.length, channelId := channelId, authorId := authorId,
        content := content, sourceId := none }
    (store ++ [m], m)

/-- The `/ingest-external` handler: reject (HTTP 400) unless
`channel_id`, `server_id`, `author_id` and `content` are all truthy,
otherwise create the message (passing the payload source id through) and
answer 202. -/
def ingestExternal (store : List StoredMessage) (p : IngestPayload) :
    List StoredMessage × Nat :=
  if !(jsStrTruthy p.channel_id) || !(jsStrTruthy p.server_id) ||
      !(jsStrTruthy p.author_id) || !(jsStrTruthy p.content) then
    (store, 400)
  else
    let r := createMessage store (p.channel_id.getD "") (p.author_id.getD "")
      (p.content.getD "") p.source_id
    (r.1, 202)

/-- The number of stored messages carrying a given source id. -/
def countWithSource (store : List StoredMessage) (s : String) : Nat :=
  (store.filter (fun m => m.sourceId == some s)).length

/-- The row the ingestion path appends for a fresh source id. -/
def ingestedRow (store : List StoredMessage) (p : IngestPayload) (s : String) : StoredMessage :=
  { id := store.length, channelId := p.channel_id.getD "",
    authorId := p.author_id.getD "", content := p.content.getD "",
    sourceId := some s }

theorem countWithSource_zero_find (store : List StoredMessage) (s : String)
    (h : countWithSource store s = 0) :
    store.find? (fun m => m.sourceId == some s) = none := by
  rw [List.find?_eq_none]
  intro x hx hpx
  have hmem : x ∈ store.filter (fun m => m.sourceId == some s) :=
    List.mem_filter.mpr ⟨hx, hpx⟩
  have : store.filter (fun m => m.sourceId == some s) = [] :=
    List.length_eq_zero.mp h
  rw [this] at hmem
  exact absurd hmem (List.not_mem_nil x)

theorem countWithSource_append (store extra : List StoredMessage) (s : String) :
    countWithSource (store ++ extra) s = countWithSource store s + countWithSource extra s := by
  simp [countWithSource, List.filter_append]

theorem ingestExternal_fresh (store : List StoredMessage) (p : IngestPayload) (s : String)
    (hs : p.source_id = some s)
    (hvalid : (!(jsStrTruthy p.channel_id) || !(jsStrTruthy p.server_id) ||
      !(jsStrTruthy p.author_id) || !(jsStrTruthy p.content)) = false)
    (hfind : store.find? (fun m => m.sourceId == some s) = none) :
    ingestExternal store p = (store ++ [ingestedRow store p s], 202) := by
  rw [ingestExternal, hvalid]
  simp only [Bool.false_eq_true, if_false]
  rw [createMessage.eq_def, hs]
  dsimp only
  rw [hfind]
  rfl

theorem ingestExternal_existing (store : List StoredMessage) (p : IngestPayload) (s : String)
    (hs : p.source_id = some s)
    (hvalid : (!(jsStrTruthy p.channel_id) || !(jsStrTruthy p.server_id) ||
      !(jsStrTruthy p.author_id) || !(jsStrTruthy p.content)) = false)
    (hfound : (store.find? (fun m => m.sourceId == some s)).isSome = true) :
    ingestExternal store p = (store, 202) := by
  rw [ingestExternal, hvalid]
  simp only [Bool.false_eq_true, if_false]
  rw [createMessage.eq_def, hs]
  dsimp only
  cases hf : store.find? (fun m => m.sourceId == some s) with
  | none => rw [hf] at hfound; simp at hfound
  | some m => rfl

/-- Claim C5: ingesting a payload with the same external source id twice
produces exactly one stored message with that source id, when the payload
is valid and the store held none before; both requests are accepted. -/
theorem C5_idempotent_ingestion (store : List StoredMessage) (p : IngestPayload) (s : String)
    (hs : p.source_id = some s)
    (hch : jsStrTruthy p.channel_id = true) (hsv : jsStrTruthy p.server_id = true)
    (hau : jsStrTruthy p.author_id = true) (hco : jsStrTruthy p.content = true)
    (h0 : countWithSource store s = 0) :
    countWithSource (ingestExternal (ingestExternal store p).1 p).1 s = 1 ∧
    (ingestExternal (ingestExternal store p).1 p).2 = 202 := by
  have hvalid : (!(jsStrTruthy p.channel_id) || !(jsStrTruthy p.server_id) ||
      !(jsStrTruthy p.author_id) || !(jsStrTruthy p.content)) = false := by
    rw [hch, hsv, hau, hco]; rfl
  have hfind := countWithSource_zero_find store s h0
  have h1 := ingestExternal_fresh store p s hs hvalid hfind
  have hcount1 : countWithSource (store ++ [ingestedRow store p s]) s = 1 := by
    rw [countWithSource_append, h0]
    simp [countWithSource, ingestedRow]
  have hfound : ((store ++ [ingestedRow store p s]).find?
      (fun m => m.sourceId == some s)).isSome = true := by
    rw [List.find?_isSome]
    exact ⟨ingestedRow store p s, by simp, by simp [ingestedRow]⟩
  have h2 := ingestExternal_existing (store ++ [ingestedRow store p s]) p s hs hvalid hfound
  rw [h1]
  constructor
  · show countWithSource (ingestExternal (store ++ [ingestedRow store p s]) p).1 s = 1
    rw [h2]
    exact hcount1
  · show (ingestExternal (store ++ [ingestedRow store p s]) p).2 = 202
    rw [h2]

/-- A concrete valid payload for the C5 witness. -/
def payload0 : IngestPayload :=
  { channel_id := some "chan-1", server_id := some "srv-1",
    author_id := some "user-1", content := some "hi", source_id := some "discord-42" }

/-- Witness for claim C5: ingesting `payload0` twice into an empty store
leaves exactly one message with source id `discord-42`. -/
theorem C5_idempotent_ingestion_witness :
    payload0.source_id = some "discord-42" ∧
    countWithSource [] "discord-42" = 0 ∧
    (countWithSource (ingestExternal (ingestExternal [] payload0).1 payload0).1 "discord-42" = 1 ∧
      (ingestExternal (ingestExternal [] payload0).1 payload0).2 = 202) :=
  ⟨rfl, rfl, C5_idempotent_ingestion [] payload0 "discord-42" rfl rfl rfl rfl rfl rfl⟩

/-! ### Scenario evaluation engine (C7)

Shallow embedding of `EvaluationEngine.runEvaluations` and the registered
evaluators (`EvaluationEngine.ts`).  The loop dispatches on the
evaluation type; unknown types yield a failed result.  There is no
try/catch around `evaluator.evaluate`, so a throw propagates out —
modelled as `Except.error`.  The evaluators whose outcome depends on the
runtime or a model call (`trajectory_contains_action`, `llm_judge`) catch
internally and return a result; the four conversation evaluators are
imported from `ConversationEvaluators`, which is not among the provided
sources, and are modelled from the spec sentence "evaluator failures are
recorded but never re-thrown" as total oracles.  The JS `RegExp`
constructor is a host builtin; its syntax check is modelled on the
parenthesis/escape fragment: a pattern with unbalanced groups (such as a
lone open parenthesis) throws a SyntaxError. -/

/-- A requested evaluation, one constructor per registered discriminated
type plus `other` for unknown type strings. -/
inductive EvalSpec where
  | stringContains (value : String)
  | regexMatch (pattern : String)
  | fileExists (path : String)
  | executionTime (maxMs : Int) (minMs tgtMs : Option Int)
  | trajectoryContainsAction (action : String)
  | llmJudge (prompt expected : String)
  | conversationLength
  | conversationFlow
  | userSatisfaction
  | contextRetention
  | other (t : String)
deriving DecidableEq

/-- A pass/fail evaluation result with its diagnostic message. -/
structure EvaluationResult where
  success : Bool
  message : String
deriving DecidableEq

/-- The execution artifacts an evaluation inspects. -/
structure ExecutionResultM where
  exitCode : Int
  stdout : String
  stderr : String
  files : List String
  durationMs : Option Int
  startedAtMs : Option Int
  endedAtMs : Option Int

/-- Substring test over character lists, the JS `String.includes`. -/
def hasSubstr (needle : List Char) : List Char → Bool
  | [] => needle.isEmpty
  | c :: t => needle.isPrefixOf (c :: t) || hasSubstr needle t

/-- The type string of an evaluation, the zod discriminator. -/
def evalType : EvalSpec → String
  | .stringContains _ => "string_contains"
  | .regexMatch _ => "regex_match"
  | .fileExists _ => "file_exists"
  | .executionTime _ _ _ => "execution_time"
  | .trajectoryContainsAction _ => "trajectory_contains_action"
  | .llmJudge _ _ => "llm_judge"
  | .conversationLength => "conversation_length"
  | .conversationFlow => "conversation_flow"
  | .userSatisfaction => "user_satisfaction"
  | .contextRetention => "context_retention"
  | .other t => t

/-- The evaluator types registered in the `EvaluationEngine`
constructor. -/
def registeredTypes : List String :=
  ["string_contains", "regex_match", "file_exists", "trajectory_contains_action",
   "llm_judge", "execution_time", "conversation_length", "conversation_flow",
   "user_satisfaction", "context_retention"]

/-- Syntax acceptance of the JS `RegExp` constructor, modelled on the
group/escape fragment: groups must balance and a pattern may not end in a
dangling backslash.  A lone `(` is rejected with a SyntaxError, as the
host constructor does. -/
def jsRegexParenOk : Nat → List Char → Bool
  | depth, [] => depth = 0
  | depth, '\\' :: rest =>
    match rest with
    | [] => false
    | _ :: rest2 => jsRegexParenOk depth rest2
  | depth, '(' :: rest => jsRegexParenOk (depth + 1) rest
  | 0, ')' :: _ => false
  | depth + 1, ')' :: rest => jsRegexParenOk depth rest
  | depth, _ :: rest => jsRegexParenOk depth rest

/-- Strip a leading `./` from a path (`path.replace` with a `^\x2e/`
pattern in the source). -/
def stripDotSlash (path : String) : String :=
  match path.data with
  | '.' :: '/' :: rest => String.mk rest
  | _ => path

/-- Oracles for the evaluators whose verdict depends on the host:
the compiled-regex test, and the internally-catching or spec-modelled
evaluators (`trajectory_contains_action`, `llm_judge` and the four
conversation evaluators), which always return a result. -/
structure EvalEnv where
  regexTest : String → String → Bool
  oracle : EvalSpec → EvaluationResult

/-- The `-` placeholder the execution-time message uses for a missing
bound. -/
def optIntStr : Option Int → String
  | none => "-"
  | some v => toString v

/-- One dispatched `evaluator.evaluate` call: `Except.error` models a
throw.  Only the regex evaluator can throw (an invalid pattern passed to
the `RegExp` constructor); every other registered evaluator returns a
result. -/
def evaluateOne (env : EvalEnv) (rr : ExecutionResultM) :
    EvalSpec → Except String EvaluationResult
  | .stringContains v =>
    .ok { success := hasSubstr v.data rr.stdout.data,
          message := "Checked if stdout contains \"" ++ v ++ "\". Result: "
            ++ toString (hasSubstr v.data rr.stdout.data) }
  | .regexMatch p =>
    if jsRegexParenOk 0 p.data then
      .ok { success := env.regexTest p rr.stdout,
            message := "Checked if stdout matches regex \"" ++ p ++ "\". Result: "
              ++ toString (env.regexTest p rr.stdout) }
    else .error ("SyntaxError: Invalid regular expression: /" ++ p ++ "/")
  | .fileExists path =>
    .ok { success := rr.files.contains path || rr.files.contains ("./" ++ path)
            || rr.files.contains (stripDotSlash path),
          message := "Checked if file \"" ++ path ++ "\" exists. Result: "
            ++ toString (rr.files.contains path || rr.files.contains ("./" ++ path)
              || rr.files.contains (stripDotSlash path)) }
  | .executionTime maxMs minMs tgtMs =>
    let duration := rr.durationMs.getD (rr.endedAtMs.getD 0 - rr.startedAtMs.getD 0)
    let tooSlow := duration > maxMs
    let tooFast := match minMs with
      | none => false
      | some mn => duration < mn
    .ok { success := !tooSlow && !tooFast,
          message := "Execution time " ++ toString duration ++ "ms (min="
            ++ optIntStr minMs ++ ", target=" ++ optIntStr tgtMs ++ ", max="
            ++ toString maxMs ++ ")" }
  | .trajectoryContainsAction a => .ok (env.oracle (.trajectoryContainsAction a))
  | .llmJudge p e => .ok (env.oracle (.llmJudge p e))
  | .conversationLength => .ok (env.oracle .conversationLength)
  | .conversationFlow => .ok (env.oracle .conversationFlow)
  | .userSatisfaction => .ok (env.oracle .userSatisfaction)
  | .contextRetention => .ok (env.oracle .contextRetention)
  | .other t => .ok (env.oracle (.other t))

/-- The result pushed for an unknown evaluator type. -/
def unknownTypeResult (t : String) : EvaluationResult :=
  { success := false, message := "Unknown evaluator type: \x27" ++ t ++ "\x27" }

/-- `runEvaluations` (EvaluationEngine.ts lines 49 to 70): one pass over
the requested evaluations; an unregistered type contributes a failed
result and the loop continues; a dispatched evaluator that throws
propagates out of the whole call, which has no exception handler. -/
def runEvaluations (env : EvalEnv) (rr : ExecutionResultM) :
    List EvalSpec → Except String (List EvaluationResult)
  | [] => .ok []
  | e :: rest =>
    if registeredTypes.contains (evalType e) then
      match evaluateOne env rr e with
      | .error m => .error m
      | .ok r =>
        match runEvaluations env rr rest with
        | .error m => .error m
        | .ok rs => .ok (r :: rs)
    else
      match runEvaluations env rr rest with
      | .error m => .error m
      | .ok rs => .ok (unknownTypeResult (evalType e) :: rs)

/-- The result `runEvaluations` records for one evaluation when no
evaluator throws. -/
def expectedResult (env : EvalEnv) (rr : ExecutionResultM) (e : EvalSpec) :
    EvaluationResult :=
  if registeredTypes.contains (evalType e) then
    match evaluateOne env rr e with
    | .ok r => r
    | .error m => { success := false, message := m }
  else unknownTypeResult (evalType e)

/-- An environment for the C7 theorems: the regex oracle never matches
and every oracle evaluator reports a generic failure. -/
def evalEnv0 : EvalEnv :=
  { regexTest := fun _ _ => false,
    oracle := fun _ => { success := false, message := "oracle" } }

/-- A concrete execution result for the C7 theorems. -/
def rr0 : ExecutionResultM :=
  { exitCode := 0, stdout := "hello world", stderr := "", files := [],
    durationMs := none, startedAtMs := none, endedAtMs := none }

/-- Counterexample to claim C7: a `regex_match` evaluation whose pattern
is a lone `(` makes the dispatched evaluator construct an invalid RegExp;
the throw propagates out of `runEvaluations`, which therefore does throw
instead of recording the failure in a result. -/
theorem C7_runEvaluations_throws :
    runEvaluations evalEnv0 rr0 [EvalSpec.regexMatch "("] =
      .error "SyntaxError: Invalid regular expression: /(/" := by
  rfl

/-- Claim C7 as amended: provided no dispatched evaluator throws,
`runEvaluations` returns exactly one pass/fail result per requested
evaluation, in input order (the result list is the map of the per-element
result over the input list); an unknown evaluator type yields a failed
result carrying the unknown-type diagnostic, and does not abort the run.
An evaluator that does throw (such as `regex_match` over an invalid
pattern) propagates: `runEvaluations` has no exception handling of its
own. -/
theorem C7_one_result_per_evaluation (env : EvalEnv) (rr : ExecutionResultM)
    (evals : List EvalSpec)
    (h : ∀ e ∈ evals, (evaluateOne env rr e).isOk = true) :
    runEvaluations env rr evals = .ok (evals.map (expectedResult env rr)) ∧
    (evals.map (expectedResult env rr)).length = evals.length ∧
    ∀ e, registeredTypes.contains (evalType e) = false →
      expectedResult env rr e = unknownTypeResult (evalType e) := by
  refine ⟨?_, List.length_map _ _, ?_⟩
  · induction evals with
    | nil => rfl
    | cons e rest ih =>
      have he := h e (List.mem_cons_self e rest)
      have hrest : ∀ x ∈ rest, (evaluateOne env rr x).isOk = true :=
        fun x hx => h x (List.mem_cons_of_mem e hx)
      rw [runEvaluations, List.map_cons]
      by_cases hreg : registeredTypes.contains (evalType e) = true
      · cases hev : evaluateOne env rr e with
        | error m =>
          rw [hev] at he
          simp [Except.isOk, Except.toBool] at he
        | ok r =>
          have hexp : expectedResult env rr e = r := by
            unfold expectedResult
            rw [if_pos hreg]
            rw [hev]
          rw [if_pos hreg]
          rw [ih hrest]
          rw [hexp]
      · have hexp : expectedResult env rr e = unknownTypeResult (evalType e) := by
          unfold expectedResult
          rw [if_neg hreg]
        rw [if_neg hreg, ih hrest, hexp]
  · intro e hreg
    have hneg : ¬(registeredTypes.contains (evalType e) = true) := by
      rw [hreg]; decide
    unfold expectedResult
    rw [if_neg hneg]

/-- Witness for the amended claim C7: a contains-check that fails, one
that succeeds, and an unknown type, evaluated in order. -/
theorem C7_one_result_per_evaluation_witness :
    (∀ e ∈ [EvalSpec.stringContains "world", EvalSpec.stringContains "mars",
        EvalSpec.other "bogus"], (evaluateOne evalEnv0 rr0 e).isOk = true) ∧
    runEvaluations evalEnv0 rr0
        [EvalSpec.stringContains "world", EvalSpec.stringContains "mars",
          EvalSpec.other "bogus"] =
      .ok ([EvalSpec.stringContains "world", EvalSpec.stringContains "mars",
          EvalSpec.other "bogus"].map (expectedResult evalEnv0 rr0)) := by
  have hall : ∀ e ∈ [EvalSpec.stringContains "world", EvalSpec.stringContains "mars",
      EvalSpec.other "bogus"], (evaluateOne evalEnv0 rr0 e).isOk = true := by
    decide
  exact ⟨hall, (C7_one_result_per_evaluation evalEnv0 rr0 _ hall).1⟩

/-! ### Concrete environments and witnesses for the loop claims -/

/-- A decision step naming one provider and one action. -/
def demoStepWithAction : ParsedStep :=
  { thought := some "t", providers := ["TEST_PROVIDER"],
    action := some "TEST_ACTION", isFinish := false }

/-- A small concrete environment: every decision step pulls one provider
and runs one action, and the summary parses with non-empty text. -/
def demoEnv : MultiStepEnv :=
  { maxSetting := none,
    parses := fun _ => some demoStepWithAction,
    providerOutcome := fun _ _ => ProviderOutcome.result "Provider result" none none,
    actionOutcome := fun _ => ActionOutcome.done (some (true, some "done")),
    summaryParse := some { thought := some "s", text := some "Final response" } }

/-- The demo environment with a provider whose pull rejects. -/
def demoThrowEnv : MultiStepEnv :=
  { demoEnv with providerOutcome := fun _ _ => ProviderOutcome.throws "Provider failed" }

/-- A decision step naming one provider and no action. -/
def demoStep : ParsedStep :=
  { thought := some "t", providers := ["TEST_PROVIDER"], action := none, isFinish := false }

/-- Witness for claim C1 at the concrete environment: the ceiling holds
with the unset-setting default of 6. -/
theorem C1_iteration_ceiling_witness :
    (runMultiStep demoEnv).iterations ≤ maxIterationsOf demoEnv.maxSetting ∧
    (runMultiStep demoEnv).summaryRuns = 1 ∧
    maxIterationsOf none = 6 :=
  C1_iteration_ceiling demoEnv

/-- Witness for claim C2 at the concrete environment. -/
theorem C2_mode_simple_iff_witness :
    ((runMultiStep demoEnv).mode = "simple" ↔
      ∃ sp t, demoEnv.summaryParse = some sp ∧ sp.text = some t ∧ t ≠ "") ∧
    (runMultiStep demoEnv).responseText = summaryTextOf demoEnv.summaryParse ∧
    ((runMultiStep demoEnv).mode = "simple" → (runMultiStep demoEnv).responseMessagesLen = 1) ∧
    ((runMultiStep demoEnv).mode ≠ "simple" →
      (runMultiStep demoEnv).mode = "none" ∧ (runMultiStep demoEnv).responseText = none ∧
      (runMultiStep demoEnv).responseMessagesLen = 0) :=
  C2_mode_simple_iff demoEnv

/-- Witness for claim C6: a throwing provider pull at iteration 1 yields
exactly the recorded catch entry, and the summarization block still runs
in the throwing environment. -/
theorem C6_capability_errors_recovered_witness :
    execStep demoThrowEnv 1 demoStep = [catchEntry demoStep.action "Provider failed"] ∧
    (runMultiStep demoThrowEnv).summaryRuns = 1 :=
  ⟨C6_capability_errors_recovered.2.1 demoThrowEnv 1 demoStep "Provider failed"
      "TEST_PROVIDER" [] rfl rfl,
    C6_capability_errors_recovered.2.2.2 demoThrowEnv⟩

end ADA
